import Mathlib

/-!
Shallow embedding of the Cognito JWT authorizer
(`src/functions/jwt_function/main.go`) and proofs about it.

Conventions of the embedding:
* Go byte slices are `List Nat` (each entry a byte value);
* Go `time.Time` is an `Int` of Unix seconds, and `time.Since t > time.Hour`
  becomes `now - t > 3600`;
* Go maps (`jwt.MapClaims`, the JWKS cache) are association lists, looked up
  by first match; a map insert conses the new binding in front;
* JSON values stored in claim maps (`interface\x7b\x7d` in Go) are the
  inductive `JSONVal`; a Go type assertion `v.(string)` becomes a match on
  `JSONVal.str`;
* the network (`http.Get` + JSON decoding of the JWKS body) is a parameter
  `net : Except VError JWKSResponse` given to each resolve call, together
  with a `fetchCount` in the result recording whether the call consumed it;
* RSA signature verification (`jwt.SigningMethodRSA.Verify`, a third-party
  routine whose code is not part of this repository) is a parameter
  `sigCheck : PublicKey → Bool` saying whether this token's signature
  verifies under a given key, together with a `sigChecks` counter.
-/

namespace JwtAuth

/-- Equality of `Except` outcomes is decidable; used to evaluate the
model on concrete inputs. -/
instance {ε α : Type} [DecidableEq ε] [DecidableEq α] : DecidableEq (Except ε α) := fun
  | .ok x, .ok y =>
    if h : x = y then .isTrue (by rw [h]) else .isFalse (by intro hc; cases hc; exact h rfl)
  | .error x, .error y =>
    if h : x = y then .isTrue (by rw [h]) else .isFalse (by intro hc; cases hc; exact h rfl)
  | .ok _, .error _ => .isFalse (by intro hc; cases hc)
  | .error _, .ok _ => .isFalse (by intro hc; cases hc)

/-- A JSON value as it appears in a decoded claim map. Go stores these as
`interface\x7b\x7d`; numbers arrive as `float64`, modelled here as `Int`
(all time comparisons in the program are on whole Unix seconds). -/
inductive JSONVal where
  | str : String → JSONVal
  | num : Int → JSONVal
  | boolean : Bool → JSONVal
  | null : JSONVal
deriving DecidableEq, Repr

/-- A decoded claim map (`jwt.MapClaims` in Go). -/
abbrev MapClaims := List (String × JSONVal)

/-- Go map read `m[k]`: first binding for the key, if any. -/
def lookupJ (m : MapClaims) (k : String) : Option JSONVal :=
  (m.find? (fun p => p.1 == k)).map (fun p => p.2)

/-- Go comparison of an `interface\x7b\x7d` claim value with a `string`:
equal iff the dynamic type is `string` and the contents agree. -/
def jsonEqStr (v : JSONVal) (s : String) : Bool :=
  match v with
  | .str t => t == s
  | _ => false

/-- `claims[k].(string)` with the zero value on failure: the string if the
claim is present with string type, `""` otherwise. -/
def claimStr (m : MapClaims) (k : String) : String :=
  match lookupJ m k with
  | some (.str s) => s
  | _ => ""

/-! ### Base64URL decoding (`base64URLDecode`, main.go lines 139-145)

Go's `base64.URLEncoding.DecodeString` consumes four characters at a time
over the URL-safe alphabet `A-Z a-z 0-9 - _`; `=` may appear only as the
final one or two characters of the input. The default (non-strict) decoder
does not require the unused trailing bits of a padded quantum to be zero;
the model below likewise drops them. (Go also skips embedded newlines,
which no JWKS field contains; newline skipping is not modelled.) -/

/-- Index of a character in the URL-safe base64 alphabet. -/
def b64URLIndex (c : Char) : Option Nat :=
  if 'A' ≤ c ∧ c ≤ 'Z' then some (c.toNat - 65)
  else if 'a' ≤ c ∧ c ≤ 'z' then some (c.toNat - 97 + 26)
  else if '0' ≤ c ∧ c ≤ '9' then some (c.toNat - 48 + 52)
  else if c = '-' then some 62
  else if c = '_' then some 63
  else none

/-- First output byte of a quantum: top 6 bits from `i1`, top 2 of `i2`. -/
def b64Byte1 (i1 i2 : Nat) : Nat := i1 * 4 + i2 / 16

/-- Second output byte of a quantum. -/
def b64Byte2 (i2 i3 : Nat) : Nat := (i2 % 16) * 16 + i3 / 4

/-- Third output byte of a quantum. -/
def b64Byte3 (i3 i4 : Nat) : Nat := (i3 % 4) * 64 + i4

/-- Decode a padded base64url character stream, four characters at a time.
`none` is a `CorruptInputError`: an alphabet violation, `=` anywhere but
the final one or two positions, or a length not a multiple of 4. -/
def base64URLDecodeRaw : List Char → Option (List Nat)
  | [] => some []
  | c1 :: c2 :: c3 :: c4 :: rest =>
    match b64URLIndex c1, b64URLIndex c2 with
    | some i1, some i2 =>
      if c3 = '=' then
        if c4 = '=' && rest.isEmpty then some [b64Byte1 i1 i2] else none
      else
        match b64URLIndex c3 with
        | some i3 =>
          if c4 = '=' then
            if rest.isEmpty then some [b64Byte1 i1 i2, b64Byte2 i2 i3] else none
          else
            match b64URLIndex c4 with
            | some i4 =>
              match base64URLDecodeRaw rest with
              | some bs => some (b64Byte1 i1 i2 :: b64Byte2 i2 i3 :: b64Byte3 i3 i4 :: bs)
              | none => none
            | none => none
        | none => none
    | _, _ => none
  | _ => none

/-- `base64URLDecode` (main.go 139-145): append `=` until the length is a
multiple of 4, then decode. `none` is the decode error. -/
def base64URLDecode (s : String) : Option (List Nat) :=
  let cs := s.toList
  let r := cs.length % 4
  if r = 0 then base64URLDecodeRaw cs
  else base64URLDecodeRaw (cs ++ List.replicate (4 - r) '=')

/-! ### Key decoding (`getPublicKey` body, main.go lines 104-126) -/

/-- One entry of the JWKS document (`JWK` struct in main.go). -/
structure JWK where
  kid : String
  alg : String
  kty : String
  e : String
  n : String
  use : String
deriving DecidableEq, Repr

/-- The JWKS document (`JWKSResponse` struct in main.go). -/
structure JWKSResponse where
  keys : List JWK
deriving DecidableEq, Repr

/-- An RSA public key as built by main.go: `N = new(big.Int).SetBytes(n)`
(arbitrary-precision, big-endian) and `E` the `int` exponent. -/
structure PublicKey where
  N : Nat
  E : Nat
deriving DecidableEq, Repr

/-- `big.Int.SetBytes`: big-endian (MSB-first) unsigned interpretation. -/
def bytesToNat (bs : List Nat) : Nat :=
  bs.foldl (fun acc b => acc * 256 + b) 0

/-- The exponent conversion of main.go lines 114-120: fewer than 4 bytes
are left-padded with zero bytes to 4 and read as a big-endian `Uint32`;
otherwise the first 4 bytes are read directly. -/
def exponentOfBytes (e : List Nat) : Nat :=
  if e.length < 4 then bytesToNat (List.replicate (4 - e.length) 0 ++ e)
  else bytesToNat (e.take 4)

/-- Errors of the program, one constructor per distinct error return
(the spec's §7 taxonomy). -/
inductive VError where
  | configError
  | fetchError
  | parseError
  | keyNotFound
  | keyDecodeError
  | malformedToken
  | unsupportedAlgorithm
  | missingKeyId
  | invalidSignature
  | tokenExpired
  | issuerMismatch
  | audienceMismatch
  | invalidToken
deriving DecidableEq, Repr

/-- Build a `PublicKey` from one JWKS entry, exactly as main.go lines
104-126: base64url-decode `n` and `e` (either failure is the key-decode
error), then take `N` big-endian arbitrary-precision and `E` via the
4-byte exponent rule. -/
def decodeJWK (j : JWK) : Except VError PublicKey :=
  match base64URLDecode j.n with
  | none => .error .keyDecodeError
  | some nBytes =>
    match base64URLDecode j.e with
    | none => .error .keyDecodeError
    | some eBytes => .ok { N := bytesToNat nBytes, E := exponentOfBytes eBytes }

/-! ### The JWKS cache (`TokenValidator.getPublicKey`, main.go lines 76-136) -/

/-- The mutable part of a `TokenValidator`: the `jwksCache` map from kid to
key and the single `lastUpdated` timestamp. -/
structure CacheState where
  jwksCache : List (String × PublicKey)
  lastUpdated : Int
deriving DecidableEq, Repr

/-- Cache map read `v.jwksCache[kid]`. -/
def lookupKey (c : List (String × PublicKey)) (kid : String) : Option PublicKey :=
  (c.find? (fun p => p.1 == kid)).map (fun p => p.2)

/-- The linear scan of main.go lines 101-133: first JWKS entry whose `Kid`
equals the requested kid. -/
def findKey (kid : String) (keys : List JWK) : Option JWK :=
  keys.find? (fun j => j.kid == kid)

/-- Outcome of one `getPublicKey` call: the returned value or error, the
cache state after the call, and how many HTTP fetches the call made. -/
structure ResolveResult where
  result : Except VError PublicKey
  state : CacheState
  fetchCount : Nat
deriving Repr

/-- `getPublicKey` (main.go 76-136). In order: if more than an hour has
passed since `lastUpdated`, replace the cache map wholesale with an empty
one; serve a cache hit without fetching; otherwise fetch the JWKS (`net`
stands for `http.Get` + JSON decode: its error is the fetch/parse error),
scan for the kid, decode the matching entry, store it and stamp
`lastUpdated = now`. An absent kid is the key-not-found error. -/
def getPublicKey (now : Int) (net : Except VError JWKSResponse)
    (st : CacheState) (kid : String) : ResolveResult :=
  let cache := if now - st.lastUpdated > 3600 then [] else st.jwksCache
  match lookupKey cache kid with
  | some key => { result := .ok key, state := { st with jwksCache := cache }, fetchCount := 0 }
  | none =>
    match net with
    | .error e => { result := .error e, state := { st with jwksCache := cache }, fetchCount := 1 }
    | .ok jwks =>
      match findKey kid jwks.keys with
      | none =>
        { result := .error .keyNotFound, state := { st with jwksCache := cache }, fetchCount := 1 }
      | some j =>
        match decodeJWK j with
        | .error e =>
          { result := .error e, state := { st with jwksCache := cache }, fetchCount := 1 }
        | .ok pk =>
          { result := .ok pk,
            state := { jwksCache := (j.kid, pk) :: cache, lastUpdated := now },
            fetchCount := 1 }

/-! ### Token validation (`ValidateToken`, main.go lines 148-197)

The token string is parsed by the third-party `jwt.Parse`, whose code is
not part of this repository; the parse and signature steps are therefore
modelled from the spec (§4.3 steps 1-4): a `parse` parameter turns the
string into a structured token or a malformed-token error, the algorithm
and kid checks are the keyfunc of main.go lines 150-164, and `sigCheck`
stands for signature verification under the resolved key. The library's
claim helpers `VerifyExpiresAt` and `VerifyIssuer`, called directly by
main.go lines 173 and 179, are modelled from the spec (§4.3 steps 5-6)
with their documented required-claim semantics. -/

/-- A structurally valid token after parsing: its header map and claim
map. The signature bytes are not represented; `sigCheck` decides whether
they verify under a given key. -/
structure Token where
  header : List (String × JSONVal)
  claims : MapClaims
deriving DecidableEq, Repr

/-- `token.Header["alg"]` as a string, if present with string type. -/
def headerAlg (tok : Token) : Option String :=
  match lookupJ tok.header "alg" with
  | some (.str a) => some a
  | _ => none

/-- `token.Header["kid"].(string)` (main.go 157): the kid if present with
string type. -/
def headerKid (tok : Token) : Option String :=
  match lookupJ tok.header "kid" with
  | some (.str k) => some k
  | _ => none

/-- The algorithms whose `jwt` signing method is `*jwt.SigningMethodRSA`,
the type accepted by the assertion at main.go line 152. -/
def isRSAAlg (a : String) : Bool :=
  a == "RS256" || a == "RS384" || a == "RS512"

/-- Modelled from the spec: `jwt.MapClaims.VerifyExpiresAt` (third-party,
not under src/), called at main.go line 173; §4.3 step 5. The `exp` claim
must be a number; a missing claim (or the number 0, which the library
treats as missing) passes only when the claim is not required; otherwise
the token is valid exactly when `now` is strictly before `exp`. -/
def verifyExpiresAt (claims : MapClaims) (now : Int) (req : Bool) : Bool :=
  match lookupJ claims "exp" with
  | none => !req
  | some (.num e) => if e == 0 then !req else decide (now < e)
  | some _ => false

/-- Modelled from the spec: `jwt.MapClaims.VerifyIssuer` (third-party, not
under src/), called at main.go line 179; §4.3 step 6. The `iss` claim read
as a string (zero value `""` when absent or non-string) must equal the
expected issuer exactly; an empty issuer fails when required. -/
def verifyIssuer (claims : MapClaims) (cmp : String) (req : Bool) : Bool :=
  let iss := claimStr claims "iss"
  if iss == "" then !req else iss == cmp

/-- The expected issuer of main.go line 178:
`https://cognito-idp.<region>.amazonaws.com/<userPoolID>`. Note the region
comes from the package-level `cognitoRegion`, not from the validator. -/
def expectedIssuer (region userPoolID : String) : String :=
  "https://cognito-idp." ++ region ++ ".amazonaws.com/" ++ userPoolID

/-- The audience/client check of main.go lines 183-191: a present
`client_id` claim must equal the configured client id, then a present
`aud` claim must equal it too; a token carrying neither claim passes. -/
def audienceClientCheck (clientID : String) (claims : MapClaims) : Except VError Unit :=
  match lookupJ claims "client_id" with
  | some v =>
    if jsonEqStr v clientID then
      match lookupJ claims "aud" with
      | some w => if jsonEqStr w clientID then .ok () else .error .audienceMismatch
      | none => .ok ()
    else .error .audienceMismatch
  | none =>
    match lookupJ claims "aud" with
    | some w => if jsonEqStr w clientID then .ok () else .error .audienceMismatch
    | none => .ok ()

/-- The immutable configuration of a `TokenValidator` (main.go 45-51). -/
structure TVConfig where
  jwksURL : String
  userPoolID : String
  clientID : String
deriving DecidableEq, Repr

/-- Outcome of one `ValidateToken` call: the claims or error, the cache
state after the call, the number of HTTP fetches, and the number of
signature verifications performed. -/
structure ValidateResult where
  result : Except VError MapClaims
  state : CacheState
  fetchCount : Nat
  sigChecks : Nat
deriving Repr

/-- `ValidateToken` (main.go 148-197). `parse` stands for the structural
parse of `jwt.Parse` (modelled from the spec, §4.3 step 1; `none` is the
malformed-token error). Then, in the order of the code: the keyfunc checks
the signing method is `*jwt.SigningMethodRSA` and reads the kid, the key
is resolved through `getPublicKey`, the signature is verified under it,
and the claims are checked: expiry (required), issuer (required), then
audience/client. On success the full claim map is returned. -/
def ValidateToken (parse : String → Option Token) (region : String) (cfg : TVConfig)
    (sigCheck : PublicKey → Bool) (now : Int) (net : Except VError JWKSResponse)
    (st : CacheState) (tokenString : String) : ValidateResult :=
  match parse tokenString with
  | none => ⟨.error .malformedToken, st, 0, 0⟩
  | some tok =>
    match headerAlg tok with
    | none => ⟨.error .unsupportedAlgorithm, st, 0, 0⟩
    | some a =>
      if isRSAAlg a then
        match headerKid tok with
        | none => ⟨.error .missingKeyId, st, 0, 0⟩
        | some kid =>
          let r := getPublicKey now net st kid
          match r.result with
          | .error e => ⟨.error e, r.state, r.fetchCount, 0⟩
          | .ok pk =>
            if sigCheck pk then
              if verifyExpiresAt tok.claims now true then
                if verifyIssuer tok.claims (expectedIssuer region cfg.userPoolID) true then
                  match audienceClientCheck cfg.clientID tok.claims with
                  | .ok _ => ⟨.ok tok.claims, r.state, r.fetchCount, 1⟩
                  | .error e => ⟨.error e, r.state, r.fetchCount, 1⟩
                else ⟨.error .issuerMismatch, r.state, r.fetchCount, 1⟩
              else ⟨.error .tokenExpired, r.state, r.fetchCount, 1⟩
            else ⟨.error .invalidSignature, r.state, r.fetchCount, 1⟩
      else ⟨.error .unsupportedAlgorithm, st, 0, 0⟩

/-! ### Lambda entry points (main.go lines 200-276) -/

/-- `NewTokenValidator` (main.go 54-73): all three parameters are
required; the JWKS URL is derived from region and pool. The fresh
validator starts with an empty cache and the zero timestamp. -/
def NewTokenValidator (region userPoolID clientID : String) :
    Except VError (TVConfig × CacheState) :=
  if region == "" then .error .configError
  else if userPoolID == "" then .error .configError
  else if clientID == "" then .error .configError
  else .ok (⟨"https://cognito-idp." ++ region ++ ".amazonaws.com/" ++ userPoolID
              ++ "/.well-known/jwks.json", userPoolID, clientID⟩,
            ⟨[], 0⟩)

/-- `ValidateTokenForAPIGateway` (main.go 200-218): require the region,
build a fresh validator, validate, and return the claim map. -/
def ValidateTokenForAPIGateway (parse : String → Option Token)
    (region : String) (sigCheck : PublicKey → Bool) (now : Int)
    (net : Except VError JWKSResponse) (token userPoolID clientID : String) :
    Except VError MapClaims :=
  if region == "" then .error .configError
  else
    match NewTokenValidator region userPoolID clientID with
    | .error e => .error e
    | .ok (cfg, st) => (ValidateToken parse region cfg sigCheck now net st token).result

/-- One statement of an IAM policy (`events.IAMPolicyStatement`). -/
structure IAMPolicyStatement where
  action : List String
  effect : String
  resource : List String
deriving DecidableEq, Repr

/-- `events.APIGatewayCustomAuthorizerPolicy`. -/
structure AuthorizerPolicy where
  version : String
  statement : List IAMPolicyStatement
deriving DecidableEq, Repr

/-- `events.APIGatewayCustomAuthorizerRequest`: the bearer token and the
ARN of the method being invoked. -/
structure AuthorizerEvent where
  authorizationToken : String
  methodArn : String
deriving DecidableEq, Repr

/-- `events.APIGatewayCustomAuthorizerResponse` (the fields main.go
sets). All context values the handler stores are strings. -/
structure AuthorizerResponse where
  principalID : String
  policyDocument : AuthorizerPolicy
  context : List (String × String)
deriving DecidableEq, Repr

/-- `generatePolicy` (main.go 262-276). The `principalID` parameter is
accepted and ignored, exactly as in the code. -/
def generatePolicy (principalID effect resource : String) : AuthorizerPolicy :=
  ⟨"2012-10-17", [⟨["execute-api:Invoke"], effect, [resource]⟩]⟩

/-- `strings.TrimPrefix(s, "Bearer ")` (main.go 223): drop the 7-character
marker when the token starts with it, otherwise leave the string alone. -/
def stripBearer (s : String) : String :=
  if ("Bearer ").toList.isPrefixOf s.toList then String.mk (s.toList.drop 7) else s

/-- One conditional context insert of main.go 243-249: if the claim is
present with string type, add it to the context under the given key. -/
def appendIfStr (ctx : List (String × String)) (claims : MapClaims)
    (claimKey ctxKey : String) : List (String × String) :=
  match lookupJ claims claimKey with
  | some (.str u) => ctx ++ [(ctxKey, u)]
  | _ => ctx

/-- `handleRequest` (main.go 221-259): strip the bearer marker, validate,
read `sub` (empty string when absent or non-string), build an Allow policy
on the method ARN, and pass `sub` — plus `cognito:username` and `email`
when present as strings — through the context. -/
def handleRequest (parse : String → Option Token) (region userPoolID clientID : String)
    (sigCheck : PublicKey → Bool) (now : Int) (net : Except VError JWKSResponse)
    (event : AuthorizerEvent) : Except VError AuthorizerResponse :=
  let token := stripBearer event.authorizationToken
  match ValidateTokenForAPIGateway parse region sigCheck now net token userPoolID clientID with
  | .error e => .error e
  | .ok claims =>
    let sub := claimStr claims "sub"
    let policyDocument := generatePolicy sub "Allow" event.methodArn
    let ctx := appendIfStr (appendIfStr [("sub", sub)] claims "cognito:username" "username")
      claims "email" "email"
    .ok ⟨sub, policyDocument, ctx⟩

/-! ### The four checks of the spec, as predicates on a validation run

These name the conditions of §3's invariant ("TokenClaims is produced if
and only if signature, expiry, issuer, and audience/client checks all
pass"). Verifying the signature under the resolved public key presupposes
a supported algorithm, a kid, and a successful key resolution — the code
can only reach `Method.Verify` through those. -/

/-- The token's signature verifies under the resolved public key. -/
def signatureVerified (parse : String → Option Token) (sigCheck : PublicKey → Bool)
    (now : Int) (net : Except VError JWKSResponse) (st : CacheState) (s : String) : Prop :=
  ∃ tok a kid pk, parse s = some tok ∧ headerAlg tok = some a ∧ isRSAAlg a = true
    ∧ headerKid tok = some kid ∧ (getPublicKey now net st kid).result = .ok pk
    ∧ sigCheck pk = true

/-- The expiry check passes on the parsed token's claims. -/
def expiryPasses (parse : String → Option Token) (now : Int) (s : String) : Prop :=
  ∃ tok, parse s = some tok ∧ verifyExpiresAt tok.claims now true = true

/-- The issuer claim equals the expected issuer. -/
def issuerPasses (parse : String → Option Token) (region : String) (cfg : TVConfig)
    (s : String) : Prop :=
  ∃ tok, parse s = some tok
    ∧ verifyIssuer tok.claims (expectedIssuer region cfg.userPoolID) true = true

/-- The audience/client check passes on the parsed token's claims. -/
def audiencePasses (parse : String → Option Token) (cfg : TVConfig) (s : String) : Prop :=
  ∃ tok, parse s = some tok ∧ audienceClientCheck cfg.clientID tok.claims = .ok ()

/-! ### Concrete test fixtures (used by witnesses) -/

/-- A JWKS entry with exponent `AQAB` (bytes `01 00 01`, the conventional
65537) and a 5-byte modulus published without base64 padding. -/
def testJWK : JWK := ⟨"k1", "RS256", "RSA", "AQAB", "AQIDBAU", "sig"⟩

/-- The key that main.go builds from `testJWK`. -/
def testPK : PublicKey := ⟨4328719365, 65537⟩

/-- A network that serves a JWKS holding exactly `testJWK`. -/
def testNet : Except VError JWKSResponse := .ok ⟨[testJWK]⟩

/-- A parsed token that passes every check of the validator configured
with region `r1`, pool `pool1`, client `cli1` at time 1000. -/
def testToken : Token :=
  ⟨[("alg", .str "RS256"), ("kid", .str "k1")],
   [("sub", .str "user1"), ("exp", .num 2000),
    ("iss", .str "https://cognito-idp.r1.amazonaws.com/pool1"),
    ("client_id", .str "cli1")]⟩

/-- Like `testToken` but with no `sub` claim and a passthrough `email`. -/
def testTokenNoSub : Token :=
  ⟨[("alg", .str "RS256"), ("kid", .str "k1")],
   [("exp", .num 2000),
    ("iss", .str "https://cognito-idp.r1.amazonaws.com/pool1"),
    ("client_id", .str "cli1"), ("email", .str "u@example.com")]⟩

/-- Like `testToken` but already expired at time 1000. -/
def testTokenExpired : Token :=
  ⟨[("alg", .str "RS256"), ("kid", .str "k1")],
   [("sub", .str "user1"), ("exp", .num 500),
    ("iss", .str "https://cognito-idp.r1.amazonaws.com/pool1"),
    ("client_id", .str "cli1")]⟩

/-- A token declaring the symmetric algorithm `HS256`. -/
def testTokenHS : Token :=
  ⟨[("alg", .str "HS256"), ("kid", .str "k1")],
   [("sub", .str "user1"), ("exp", .num 2000)]⟩

/-- A token whose header carries no `kid` field. -/
def testTokenNoKid : Token :=
  ⟨[("alg", .str "RS256")],
   [("sub", .str "user1"), ("exp", .num 2000)]⟩

/-- A concrete structural parser: a few known token strings. -/
def testParse : String → Option Token :=
  fun s => if s = "good" then some testToken
           else if s = "nosub" then some testTokenNoSub
           else if s = "expired" then some testTokenExpired
           else if s = "hs" then some testTokenHS
           else if s = "nokid" then some testTokenNoKid
           else none

/-- The validator configuration built for region `r1`, pool `pool1`,
client `cli1`. -/
def testCfg : TVConfig :=
  ⟨"https://cognito-idp.r1.amazonaws.com/pool1/.well-known/jwks.json", "pool1", "cli1"⟩

/-! ### Supporting lemmas -/

/-- Accumulator law for the big-endian byte fold. -/
lemma foldl_bytes_acc (bs : List Nat) (acc : Nat) :
    bs.foldl (fun a b => a * 256 + b) acc
      = acc * 256 ^ bs.length + bs.foldl (fun a b => a * 256 + b) 0 := by
  induction bs generalizing acc with
  | nil => simp
  | cons x xs ih =>
    simp only [List.foldl_cons, List.length_cons]
    rw [ih (acc * 256 + x), ih (0 * 256 + x)]
    ring

/-- `bytesToNat` is MSB-first: the head byte carries weight `256 ^ length`
of the tail. -/
lemma bytesToNat_cons (b : Nat) (bs : List Nat) :
    bytesToNat (b :: bs) = b * 256 ^ bs.length + bytesToNat bs := by
  simp only [bytesToNat, List.foldl_cons]
  rw [foldl_bytes_acc bs (0 * 256 + b)]
  ring_nf

/-- Left zero-padding does not change the big-endian value. -/
lemma bytesToNat_replicate_zero (k : Nat) (bs : List Nat) :
    bytesToNat (List.replicate k 0 ++ bs) = bytesToNat bs := by
  induction k with
  | zero => simp
  | succ n ih =>
    rw [List.replicate_succ, List.cons_append, bytesToNat_cons, ih]
    simp

/-- A stale cache behaves as an empty one: the wholesale discard happens
before the lookup. -/
lemma getPublicKey_stale_eq (now : Int) (net : Except VError JWKSResponse)
    (st : CacheState) (kid : String)
    (h : now - st.lastUpdated > 3600) :
    getPublicKey now net st kid = getPublicKey now net ⟨[], st.lastUpdated⟩ kid := by
  simp [getPublicKey, if_pos h]

/-- A stale-cache resolve always goes to the network. -/
lemma getPublicKey_stale_fetch (now : Int) (net : Except VError JWKSResponse)
    (st : CacheState) (kid : String)
    (h : now - st.lastUpdated > 3600) :
    (getPublicKey now net st kid).fetchCount = 1 := by
  simp only [getPublicKey, if_pos h]
  have hl : lookupKey [] kid = none := rfl
  rw [hl]
  cases net with
  | error e => rfl
  | ok jwks =>
    cases hk : findKey kid jwks.keys with
    | none => simp [hk]
    | some j =>
      cases hd : decodeJWK j with
      | error e => simp [hk, hd]
      | ok pk => simp [hk, hd]

/-- An error outcome is never `isOk`. -/
lemma isOk_error {ε α : Type} (e : ε) : (Except.error e : Except ε α).isOk = false := rfl

/-- A conditional context insert only appends entries. -/
lemma appendIfStr_eq (ctx : List (String × String)) (claims : MapClaims)
    (claimKey ctxKey : String) :
    ∃ t, appendIfStr ctx claims claimKey ctxKey = ctx ++ t := by
  unfold appendIfStr
  cases lookupJ claims claimKey with
  | none => exact ⟨[], by simp⟩
  | some v =>
    cases v with
    | str u => exact ⟨[(ctxKey, u)], rfl⟩
    | num n => exact ⟨[], by simp⟩
    | boolean b => exact ⟨[], by simp⟩
    | null => exact ⟨[], by simp⟩

/-- A fresh-window `getPublicKey` call that hits the cache: no state
change, no fetch. -/
lemma getPublicKey_hit (now : Int) (net : Except VError JWKSResponse)
    (st : CacheState) (kid : String) (pk : PublicKey)
    (h1 : ¬ (now - st.lastUpdated > 3600))
    (h2 : lookupKey st.jwksCache kid = some pk) :
    getPublicKey now net st kid = ⟨.ok pk, st, 0⟩ := by
  simp [getPublicKey, if_neg h1, h2]

/-- Shape of the state after a `getPublicKey` call that fetched and
succeeded: the requested kid now maps to the returned key at the front of
the surviving cache, and `lastUpdated` is stamped with `now`. -/
lemma getPublicKey_fetch_success (now : Int) (net : Except VError JWKSResponse)
    (st : CacheState) (kid : String) (pk : PublicKey)
    (h : (getPublicKey now net st kid).result = .ok pk)
    (hf : (getPublicKey now net st kid).fetchCount = 1) :
    (getPublicKey now net st kid).state
      = ⟨(kid, pk) :: (if now - st.lastUpdated > 3600 then [] else st.jwksCache), now⟩ := by
  unfold getPublicKey at h hf ⊢
  cases hl : lookupKey (if now - st.lastUpdated > 3600 then [] else st.jwksCache) kid with
  | some key => simp [hl] at hf
  | none =>
    cases net with
    | error e => simp [hl] at h
    | ok jwks =>
      cases hk : findKey kid jwks.keys with
      | none => simp [hl, hk] at h
      | some j =>
        cases hd : decodeJWK j with
        | error e => simp [hl, hk, hd] at h
        | ok pk1 =>
          have hkid : j.kid = kid := by
            have := List.find?_some hk
            exact eq_of_beq this
          simp only [hl, hk, hd] at h ⊢
          simp at h
          simp [h, hkid]

/-- Characterization of a successful `ValidateToken` run: the returned
claims are exactly the parsed token's claim map, and success forces every
stage of the pipeline to pass. -/
lemma ValidateToken_ok_iff (parse : String → Option Token) (region : String)
    (cfg : TVConfig) (sigCheck : PublicKey → Bool) (now : Int)
    (net : Except VError JWKSResponse) (st : CacheState) (s : String) (c : MapClaims) :
    (ValidateToken parse region cfg sigCheck now net st s).result = .ok c ↔
      ∃ tok, parse s = some tok ∧ c = tok.claims
        ∧ ∃ a, headerAlg tok = some a ∧ isRSAAlg a = true
        ∧ ∃ kid, headerKid tok = some kid
        ∧ ∃ pk, (getPublicKey now net st kid).result = .ok pk ∧ sigCheck pk = true
        ∧ verifyExpiresAt tok.claims now true = true
        ∧ verifyIssuer tok.claims (expectedIssuer region cfg.userPoolID) true = true
        ∧ audienceClientCheck cfg.clientID tok.claims = .ok () := by
  unfold ValidateToken
  cases hp : parse s with
  | none => simp
  | some tok =>
    cases ha : headerAlg tok with
    | none => simp [ha]
    | some a =>
      cases hra : isRSAAlg a with
      | false => simp [ha, hra]
      | true =>
        cases hk : headerKid tok with
        | none => simp [ha, hra, hk]
        | some kid =>
          cases hr : (getPublicKey now net st kid).result with
          | error e => simp [ha, hra, hk, hr]
          | ok pk =>
            cases hsg : sigCheck pk with
            | false => simp [ha, hra, hk, hr, hsg]
            | true =>
              cases hexp : verifyExpiresAt tok.claims now true with
              | false => simp [ha, hra, hk, hr, hsg, hexp]
              | true =>
                cases hiss : verifyIssuer tok.claims (expectedIssuer region cfg.userPoolID) true with
                | false => simp [ha, hra, hk, hr, hsg, hexp, hiss]
                | true =>
                  cases hac : audienceClientCheck cfg.clientID tok.claims with
                  | error e => simp [ha, hra, hk, hr, hsg, hexp, hiss, hac]
                  | ok u =>
                    simp [ha, hra, hk, hr, hsg, hexp, hiss, hac]
                    exact eq_comm

/-! ### Claim C1 -/

/-- Claim C1: a validation run returns a claim mapping if and only if the
signature verifies under the resolved public key, the expiry check passes,
the issuer claim equals the expected issuer, and the audience/client check
passes; the mapping returned is the token's claim map, and whenever any
check fails a typed error is returned and no claims are produced. -/
theorem C1_claims_iff_checks (parse : String → Option Token) (region : String)
    (cfg : TVConfig) (sigCheck : PublicKey → Bool) (now : Int)
    (net : Except VError JWKSResponse) (st : CacheState) (s : String) :
    ((∃ c, (ValidateToken parse region cfg sigCheck now net st s).result = .ok c)
      ↔ signatureVerified parse sigCheck now net st s ∧ expiryPasses parse now s
        ∧ issuerPasses parse region cfg s ∧ audiencePasses parse cfg s)
    ∧ (∀ tok c, parse s = some tok →
        (ValidateToken parse region cfg sigCheck now net st s).result = .ok c →
        c = tok.claims)
    ∧ (¬ (signatureVerified parse sigCheck now net st s ∧ expiryPasses parse now s
          ∧ issuerPasses parse region cfg s ∧ audiencePasses parse cfg s) →
        ∃ e, (ValidateToken parse region cfg sigCheck now net st s).result = .error e) := by
  have hiff := fun c => ValidateToken_ok_iff parse region cfg sigCheck now net st s c
  have hfwd : (∃ c, (ValidateToken parse region cfg sigCheck now net st s).result = .ok c)
      ↔ signatureVerified parse sigCheck now net st s ∧ expiryPasses parse now s
        ∧ issuerPasses parse region cfg s ∧ audiencePasses parse cfg s := by
    constructor
    · rintro ⟨c, hc⟩
      obtain ⟨tok, hp, hcc, a, ha, hra, kid, hk, pk, hr, hsg, hexp, hiss, hac⟩ :=
        (hiff c).mp hc
      exact ⟨⟨tok, a, kid, pk, hp, ha, hra, hk, hr, hsg⟩, ⟨tok, hp, hexp⟩,
        ⟨tok, hp, hiss⟩, ⟨tok, hp, hac⟩⟩
    · rintro ⟨⟨tok, a, kid, pk, hp, ha, hra, hk, hr, hsg⟩, ⟨tok2, hp2, hexp⟩,
        ⟨tok3, hp3, hiss⟩, ⟨tok4, hp4, hac⟩⟩
      have e2 : tok2 = tok := by rw [hp] at hp2; exact (Option.some.inj hp2).symm
      have e3 : tok3 = tok := by rw [hp] at hp3; exact (Option.some.inj hp3).symm
      have e4 : tok4 = tok := by rw [hp] at hp4; exact (Option.some.inj hp4).symm
      rw [e2] at hexp; rw [e3] at hiss; rw [e4] at hac
      exact ⟨tok.claims, (hiff tok.claims).mpr
        ⟨tok, hp, rfl, a, ha, hra, kid, hk, pk, hr, hsg, hexp, hiss, hac⟩⟩
  refine ⟨hfwd, ?_, ?_⟩
  · intro tok c hp hc
    obtain ⟨tok1, hp1, hcc, -⟩ := (hiff c).mp hc
    rw [hp] at hp1
    rw [hcc, Option.some.inj hp1]
  · intro hn
    cases hres : (ValidateToken parse region cfg sigCheck now net st s).result with
    | ok c => exact absurd (hfwd.mp ⟨c, hres⟩) hn
    | error e => exact ⟨e, rfl⟩

/-- Claim C1 witness: a concrete token passing all four checks yields its
claims. -/
theorem C1_claims_iff_checks_witness :
    ∃ c, (ValidateToken testParse "r1" testCfg (fun _ => true) 1000 testNet
      ⟨[], 0⟩ "good").result = .ok c :=
  (C1_claims_iff_checks testParse "r1" testCfg (fun _ => true) 1000 testNet
      ⟨[], 0⟩ "good").1.mpr
    ⟨⟨testToken, "RS256", "k1", testPK, rfl, rfl, rfl, rfl, by decide, rfl⟩,
     ⟨testToken, rfl, by decide⟩, ⟨testToken, rfl, by decide⟩, ⟨testToken, rfl, by decide⟩⟩

/-! ### Claim C2 -/

/-- Claim C2 counterexample: a `SigningKeyRecord` with an empty exponent
field does not fail key decoding. The empty string is decoded as valid
base64 of the empty byte string, and the key is built with exponent
exactly the integer 0 — the silent default the claim rules out. -/
theorem C2_counterexample :
    decodeJWK ⟨"k1", "RS256", "RSA", "", "AQAB", "sig"⟩ = .ok ⟨65537, 0⟩ ∧
    ∀ e : VError, decodeJWK ⟨"k1", "RS256", "RSA", "", "AQAB", "sig"⟩ ≠ .error e :=
  ⟨rfl, fun _ h => Except.noConfusion h⟩

/-- Claim C2 (amended): key decoding fails with `KeyDecodeError` exactly
when the modulus or exponent field is not valid URL-safe base64; an empty
field, however, is valid base64 for the empty byte string and is not a
failure — an empty exponent silently decodes to the integer 0. -/
theorem C2_decode_failure (j : JWK) :
    (decodeJWK j = .error .keyDecodeError
      ↔ (base64URLDecode j.n = none ∨ base64URLDecode j.e = none))
    ∧ base64URLDecode "" = some []
    ∧ (j.e = "" →
        decodeJWK j = .error .keyDecodeError ∨ ∃ N, decodeJWK j = .ok ⟨N, 0⟩) := by
  refine ⟨?_, rfl, ?_⟩
  · cases hn : base64URLDecode j.n with
    | none => simp [decodeJWK, hn]
    | some nb =>
      cases he : base64URLDecode j.e with
      | none => simp [decodeJWK, hn, he]
      | some eb => simp [decodeJWK, hn, he]
  · intro he
    cases hn : base64URLDecode j.n with
    | none => exact Or.inl (by simp [decodeJWK, hn])
    | some nb =>
      refine Or.inr ⟨bytesToNat nb, ?_⟩
      have he2 : base64URLDecode j.e = some [] := by rw [he]; rfl
      simp [decodeJWK, hn, he2, exponentOfBytes, bytesToNat]

/-- Claim C2 witness: the amended theorem applied to a record whose
modulus is not valid base64. -/
theorem C2_decode_failure_witness :
    decodeJWK ⟨"k1", "RS256", "RSA", "AQAB", "!", "sig"⟩ = .error .keyDecodeError :=
  (C2_decode_failure ⟨"k1", "RS256", "RSA", "AQAB", "!", "sig"⟩).1.mpr
    (Or.inl (by decide))

/-! ### Claim C3 -/

/-- Claim C3: when more than an hour has passed since `last_refreshed`,
the resolve call behaves exactly as if the cache were empty — the whole
set is discarded before the lookup, so whatever entries it held (the
requested kid included) are never served, and any returned key comes from
the fresh fetch (`fetchCount = 1`). -/
theorem C3_stale_cache_discarded (now : Int) (net : Except VError JWKSResponse)
    (st : CacheState) (kid : String)
    (h : now - st.lastUpdated > 3600) :
    getPublicKey now net st kid = getPublicKey now net ⟨[], st.lastUpdated⟩ kid
    ∧ (getPublicKey now net st kid).fetchCount = 1 :=
  ⟨getPublicKey_stale_eq now net st kid h, getPublicKey_stale_fetch now net st kid h⟩

/-- Claim C3 witness: at time 4000 with `last_refreshed = 0`, a cache that
still carries an entry for `k1` is ignored — the call coincides with the
empty-cache call and fetches. -/
theorem C3_stale_cache_discarded_witness :
    getPublicKey 4000 testNet ⟨[("k1", ⟨5, 3⟩)], 0⟩ "k1"
      = getPublicKey 4000 testNet ⟨[], 0⟩ "k1"
    ∧ (getPublicKey 4000 testNet ⟨[("k1", ⟨5, 3⟩)], 0⟩ "k1").fetchCount = 1 :=
  C3_stale_cache_discarded 4000 testNet ⟨[("k1", ⟨5, 3⟩)], 0⟩ "k1" (by decide)

/-! ### Claim C4 -/

/-- Claim C4: after one successful fetch-and-decode for a kid (at `t0`),
a resolve for the same kid within the freshness window is a cache hit —
it returns the same key immediately, performs no fetch, and leaves the
state unchanged — so any two such calls (at `t1` and `t2`) perform no
further network call; a resolve after the window has elapsed performs
exactly one more fetch. -/
theorem C4_cache_determinism (t0 t1 t2 : Int)
    (net0 net1 net2 : Except VError JWKSResponse) (st : CacheState)
    (kid : String) (pk : PublicKey)
    (h0 : (getPublicKey t0 net0 st kid).result = .ok pk)
    (hf : (getPublicKey t0 net0 st kid).fetchCount = 1) :
    (t1 - t0 ≤ 3600 →
      getPublicKey t1 net1 (getPublicKey t0 net0 st kid).state kid
        = ⟨.ok pk, (getPublicKey t0 net0 st kid).state, 0⟩)
    ∧ (t1 - t0 ≤ 3600 → t2 - t0 ≤ 3600 →
      (getPublicKey t1 net1 (getPublicKey t0 net0 st kid).state kid).fetchCount = 0
      ∧ (getPublicKey t2 net2
          (getPublicKey t1 net1 (getPublicKey t0 net0 st kid).state kid).state
          kid).fetchCount = 0)
    ∧ (t1 - t0 > 3600 →
      (getPublicKey t1 net1 (getPublicKey t0 net0 st kid).state kid).fetchCount = 1) := by
  have hs := getPublicKey_fetch_success t0 net0 st kid pk h0 hf
  have hhit : ∀ (t : Int) (net : Except VError JWKSResponse), t - t0 ≤ 3600 →
      getPublicKey t net (getPublicKey t0 net0 st kid).state kid
        = ⟨.ok pk, (getPublicKey t0 net0 st kid).state, 0⟩ := by
    intro t net ht
    apply getPublicKey_hit
    · rw [hs]; simp only []; omega
    · rw [hs]; simp [lookupKey]
  refine ⟨hhit t1 net1, ?_, ?_⟩
  · intro ht1 ht2
    constructor
    · rw [hhit t1 net1 ht1]
    · rw [hhit t1 net1 ht1]
      rw [hhit t2 net2 ht2]
  · intro ht1
    apply getPublicKey_stale_fetch
    rw [hs]
    simpa using ht1

/-- Claim C4 witness: a fetch at time 0, a hit at time 3600 (no fetch, and
a further call at 1800 also no fetch), and one more fetch at time 7300. -/
theorem C4_cache_determinism_witness :
    getPublicKey 3600 (.error .fetchError) ((getPublicKey 0 testNet ⟨[], -100000⟩ "k1").state) "k1"
      = ⟨.ok testPK, (getPublicKey 0 testNet ⟨[], -100000⟩ "k1").state, 0⟩
    ∧ (getPublicKey 7300 (.error .fetchError)
        ((getPublicKey 0 testNet ⟨[], -100000⟩ "k1").state) "k1").fetchCount = 1 :=
  ⟨(C4_cache_determinism 0 3600 1800 testNet (.error .fetchError) (.error .fetchError)
      ⟨[], -100000⟩ "k1" testPK (by decide) (by decide)).1 (by decide),
   (C4_cache_determinism 0 7300 1800 testNet (.error .fetchError) (.error .fetchError)
      ⟨[], -100000⟩ "k1" testPK (by decide) (by decide)).2.2 (by decide)⟩

/-! ### Claim C5 -/

/-- Claim C5: the key decoder re-pads unpadded base64url input (the 7-char
`AQIDBAU` decodes after gaining one `=`), reads the exponent as big-endian
— fewer than 4 bytes are left-zero-padded to 4, 4 or more bytes have their
first 4 read directly — and the modulus as an arbitrary-precision unsigned
big-endian integer (`bytesToNat`, whose head byte carries weight
`256 ^ length` of the tail); the fixed vector `01 00 01` yields 65537. -/
theorem C5_key_decoder :
    (∀ (j : JWK) (nb eb : List Nat),
      base64URLDecode j.n = some nb → base64URLDecode j.e = some eb →
        decodeJWK j = .ok ⟨bytesToNat nb, exponentOfBytes eb⟩)
    ∧ (∀ e : List Nat, e.length < 4 →
        exponentOfBytes e = bytesToNat (List.replicate (4 - e.length) 0 ++ e)
          ∧ exponentOfBytes e = bytesToNat e)
    ∧ (∀ e : List Nat, 4 ≤ e.length → exponentOfBytes e = bytesToNat (e.take 4))
    ∧ (∀ (b : Nat) (bs : List Nat),
        bytesToNat (b :: bs) = b * 256 ^ bs.length + bytesToNat bs)
    ∧ base64URLDecode "AQIDBAU" = some [1, 2, 3, 4, 5]
    ∧ decodeJWK testJWK = .ok ⟨4328719365, 65537⟩
    ∧ exponentOfBytes [1, 0, 1] = 65537 := by
  refine ⟨?_, ?_, ?_, bytesToNat_cons, by decide, rfl, by decide⟩
  · intro j nb eb hn he
    simp [decodeJWK, hn, he]
  · intro e hlen
    have h1 : exponentOfBytes e = bytesToNat (List.replicate (4 - e.length) 0 ++ e) := by
      rw [exponentOfBytes, if_pos hlen]
    exact ⟨h1, by rw [h1, bytesToNat_replicate_zero]⟩
  · intro e hlen
    rw [exponentOfBytes, if_neg (by omega)]

/-- Claim C5 witness: the decoder theorem applied to concrete vectors. -/
theorem C5_key_decoder_witness :
    decodeJWK ⟨"kw", "RS256", "RSA", "AQAB", "AQAB", "sig"⟩ = .ok ⟨65537, 65537⟩
    ∧ exponentOfBytes [1, 0, 1] = bytesToNat [0, 1, 0, 1]
    ∧ exponentOfBytes [1, 2, 3, 4, 5] = bytesToNat [1, 2, 3, 4] := by
  refine ⟨?_, ?_, ?_⟩
  · exact C5_key_decoder.1 ⟨"kw", "RS256", "RSA", "AQAB", "AQAB", "sig"⟩
      [1, 0, 1] [1, 0, 1] (by decide) (by decide)
  · exact (C5_key_decoder.2.1 [1, 0, 1] (by decide)).1
  · exact C5_key_decoder.2.2.1 [1, 2, 3, 4, 5] (by decide)

/-! ### Claim C6 -/

/-- Claim C6: in the audience/client step, a present `client_id` claim
differing from the configured client fails with the audience-mismatch
error, a present `aud` claim differing from the configured audience fails
with the audience-mismatch error, and a token carrying neither claim
passes the step; the step succeeds exactly when every present claim of the
two matches. -/
theorem C6_audience_client (clientID : String) (claims : MapClaims) :
    (∀ v, lookupJ claims "client_id" = some v → jsonEqStr v clientID = false →
      audienceClientCheck clientID claims = .error .audienceMismatch)
    ∧ (∀ w, lookupJ claims "aud" = some w → jsonEqStr w clientID = false →
      audienceClientCheck clientID claims = .error .audienceMismatch)
    ∧ (lookupJ claims "client_id" = none → lookupJ claims "aud" = none →
      audienceClientCheck clientID claims = .ok ())
    ∧ (audienceClientCheck clientID claims = .ok ()
      ↔ (∀ v, lookupJ claims "client_id" = some v → jsonEqStr v clientID = true)
        ∧ (∀ w, lookupJ claims "aud" = some w → jsonEqStr w clientID = true)) := by
  cases hc : lookupJ claims "client_id" with
  | some v =>
    cases hv : jsonEqStr v clientID with
    | false => simp [audienceClientCheck, hc, hv]
    | true =>
      cases ha : lookupJ claims "aud" with
      | some w =>
        cases hw : jsonEqStr w clientID with
        | false => simp [audienceClientCheck, hc, hv, ha, hw]
        | true => simp [audienceClientCheck, hc, hv, ha, hw]
      | none => simp [audienceClientCheck, hc, hv, ha]
  | none =>
    cases ha : lookupJ claims "aud" with
    | some w =>
      cases hw : jsonEqStr w clientID with
      | false => simp [audienceClientCheck, hc, ha, hw]
      | true => simp [audienceClientCheck, hc, ha, hw]
    | none => simp [audienceClientCheck, hc, ha]

/-- Claim C6 witness: a mismatched `client_id` fails, a mismatched `aud`
fails, and a claim set with neither passes. -/
theorem C6_audience_client_witness :
    audienceClientCheck "cli1" [("client_id", .str "evil")] = .error .audienceMismatch
    ∧ audienceClientCheck "cli1" [("aud", .str "evil")] = .error .audienceMismatch
    ∧ audienceClientCheck "cli1" [("sub", .str "user1")] = .ok () :=
  ⟨(C6_audience_client "cli1" [("client_id", .str "evil")]).1
      (.str "evil") (by decide) (by decide),
   (C6_audience_client "cli1" [("aud", .str "evil")]).2.1
      (.str "evil") (by decide) (by decide),
   (C6_audience_client "cli1" [("sub", .str "user1")]).2.2.1
      (by decide) (by decide)⟩

/-! ### Claim C7 -/

/-- Claim C7: a token whose `exp` claim is absent, or is a number strictly
less than the current time, never validates; and when every earlier stage
passes — in particular when the signature is valid — the error returned is
exactly the token-expired error. -/
theorem C7_token_expired (parse : String → Option Token) (region : String)
    (cfg : TVConfig) (sigCheck : PublicKey → Bool) (now : Int)
    (net : Except VError JWKSResponse) (st : CacheState) (s : String) (tok : Token)
    (hp : parse s = some tok)
    (hexp : lookupJ tok.claims "exp" = none
      ∨ ∃ e : Int, lookupJ tok.claims "exp" = some (.num e) ∧ e < now) :
    (ValidateToken parse region cfg sigCheck now net st s).result.isOk = false
    ∧ (∀ a kid pk, headerAlg tok = some a → isRSAAlg a = true →
        headerKid tok = some kid → (getPublicKey now net st kid).result = .ok pk →
        sigCheck pk = true →
        (ValidateToken parse region cfg sigCheck now net st s).result
          = .error .tokenExpired) := by
  have hVE : verifyExpiresAt tok.claims now true = false := by
    rcases hexp with h | ⟨e, he, hlt⟩
    · simp [verifyExpiresAt, h]
    · simp only [verifyExpiresAt, he]
      by_cases he0 : e = 0
      · simp [he0]
      · have : ¬ (now < e) := by omega
        simp [he0, this]
  constructor
  · cases hres : (ValidateToken parse region cfg sigCheck now net st s).result with
    | error e => rfl
    | ok c =>
      exfalso
      obtain ⟨tok1, hp1, -, a, -, -, kid, -, pk, -, -, hexp1, -, -⟩ :=
        (ValidateToken_ok_iff parse region cfg sigCheck now net st s c).mp hres
      rw [hp] at hp1
      rw [← Option.some.inj hp1] at hexp1
      rw [hVE] at hexp1
      exact Bool.false_ne_true hexp1
  · intro a kid pk ha hra hk hr hsg
    unfold ValidateToken
    simp [hp, ha, hra, hk, hr, hsg, hVE]

/-- Claim C7 witness: the concrete expired token (signature valid, key
resolved) fails with the token-expired error. -/
theorem C7_token_expired_witness :
    (ValidateToken testParse "r1" testCfg (fun _ => true) 1000 testNet
      ⟨[], 0⟩ "expired").result = .error .tokenExpired :=
  (C7_token_expired testParse "r1" testCfg (fun _ => true) 1000 testNet
      ⟨[], 0⟩ "expired" testTokenExpired rfl
      (Or.inr ⟨500, rfl, by decide⟩)).2
    "RS256" "k1" testPK rfl rfl rfl (by decide) rfl

/-! ### Claim C8 -/

/-- Claim C8: a token whose header's declared algorithm is not in the
RSA-signature family (`RS256`/`RS384`/`RS512`, the methods of type
`*jwt.SigningMethodRSA`) fails with the unsupported-algorithm error, with
no signature verification performed, no network fetch, and no cache
mutation. A header lacking a string `alg` is treated the same way by the
library (no signing method is resolvable). -/
theorem C8_unsupported_algorithm (parse : String → Option Token) (region : String)
    (cfg : TVConfig) (sigCheck : PublicKey → Bool) (now : Int)
    (net : Except VError JWKSResponse) (st : CacheState) (s : String) (tok : Token)
    (hp : parse s = some tok)
    (ha : ∀ a, headerAlg tok = some a → isRSAAlg a = false) :
    ValidateToken parse region cfg sigCheck now net st s
      = ⟨.error .unsupportedAlgorithm, st, 0, 0⟩ := by
  unfold ValidateToken
  cases hA : headerAlg tok with
  | none => simp [hp, hA]
  | some a => simp [hp, hA, ha a hA]

/-- Claim C8 witness: the concrete `HS256` token is rejected without any
signature check or fetch. -/
theorem C8_unsupported_algorithm_witness :
    ValidateToken testParse "r1" testCfg (fun _ => true) 1000 testNet
      ⟨[], 0⟩ "hs" = ⟨.error .unsupportedAlgorithm, ⟨[], 0⟩, 0, 0⟩ :=
  C8_unsupported_algorithm testParse "r1" testCfg (fun _ => true) 1000 testNet
    ⟨[], 0⟩ "hs" testTokenHS rfl
    (fun a h => by
      have : a = "HS256" := by
        have h2 : some "HS256" = some a := h
        exact (Option.some.inj h2).symm
      rw [this]
      decide)

/-! ### Claim C9 -/

/-- Claim C9: a token whose header lacks a `kid` field makes no network
call during validation (key resolution is never attempted), never
validates, and leaves the cache untouched; when its declared algorithm is
supported, the error returned is exactly the missing-key-id error. -/
theorem C9_missing_kid (parse : String → Option Token) (region : String)
    (cfg : TVConfig) (sigCheck : PublicKey → Bool) (now : Int)
    (net : Except VError JWKSResponse) (st : CacheState) (s : String) (tok : Token)
    (hp : parse s = some tok)
    (hkid : lookupJ tok.header "kid" = none) :
    ((ValidateToken parse region cfg sigCheck now net st s).fetchCount = 0
      ∧ (ValidateToken parse region cfg sigCheck now net st s).result.isOk = false
      ∧ (ValidateToken parse region cfg sigCheck now net st s).state = st)
    ∧ (∀ a, headerAlg tok = some a → isRSAAlg a = true →
        ValidateToken parse region cfg sigCheck now net st s
          = ⟨.error .missingKeyId, st, 0, 0⟩) := by
  have hK : headerKid tok = none := by simp [headerKid, hkid]
  constructor
  · unfold ValidateToken
    cases hA : headerAlg tok with
    | none => simp [hp, hA, isOk_error]
    | some a =>
      cases hra : isRSAAlg a with
      | false => simp [hp, hA, hra, isOk_error]
      | true => simp [hp, hA, hra, hK, isOk_error]
  · intro a hA hra
    unfold ValidateToken
    simp [hp, hA, hra, hK]

/-- Claim C9 witness: the concrete kid-less token fails with the
missing-key-id error and zero fetches. -/
theorem C9_missing_kid_witness :
    ValidateToken testParse "r1" testCfg (fun _ => true) 1000 testNet
      ⟨[], 0⟩ "nokid" = ⟨.error .missingKeyId, ⟨[], 0⟩, 0, 0⟩ :=
  (C9_missing_kid testParse "r1" testCfg (fun _ => true) 1000 testNet
      ⟨[], 0⟩ "nokid" testTokenNoKid rfl (by decide)).2 "RS256" rfl rfl

/-! ### Claim C10 -/

/-- Claim C10: when the token validates but the claim map has no `sub`
claim of string type, the handler still answers with an Allow policy —
effect `Allow`, action `execute-api:Invoke` on the request's method ARN —
whose principal id is the empty string, and the context's `sub` is the
empty string; no error is returned. -/
theorem C10_missing_sub_allows (parse : String → Option Token)
    (region userPoolID clientID : String) (sigCheck : PublicKey → Bool) (now : Int)
    (net : Except VError JWKSResponse) (event : AuthorizerEvent) (claims : MapClaims)
    (hv : ValidateTokenForAPIGateway parse region sigCheck now net
      (stripBearer event.authorizationToken) userPoolID clientID = .ok claims)
    (hs : ∀ x, lookupJ claims "sub" ≠ some (.str x)) :
    ∃ resp, handleRequest parse region userPoolID clientID sigCheck now net event
        = .ok resp
      ∧ resp.principalID = ""
      ∧ resp.policyDocument
          = ⟨"2012-10-17", [⟨["execute-api:Invoke"], "Allow", [event.methodArn]⟩]⟩
      ∧ (resp.context.find? (fun p => p.1 == "sub")).map (fun p => p.2) = some "" := by
  have hsub : claimStr claims "sub" = "" := by
    unfold claimStr
    cases hl : lookupJ claims "sub" with
    | none => rfl
    | some v =>
      cases v with
      | str x => exact absurd hl (hs x)
      | num n => rfl
      | boolean b => rfl
      | null => rfl
  obtain ⟨t1, h1⟩ :=
    appendIfStr_eq [("sub", claimStr claims "sub")] claims "cognito:username" "username"
  obtain ⟨t2, h2⟩ :=
    appendIfStr_eq (appendIfStr [("sub", claimStr claims "sub")] claims
      "cognito:username" "username") claims "email" "email"
  simp only [handleRequest]
  rw [hv]
  refine ⟨_, rfl, hsub, rfl, ?_⟩
  rw [h2, h1, hsub]
  simp

/-- Claim C10 witness: the concrete token with no `sub` claim (sent with a
`Bearer ` marker) yields an Allow response with empty principal. -/
theorem C10_missing_sub_allows_witness :
    ∃ resp, handleRequest testParse "r1" "pool1" "cli1" (fun _ => true) 1000 testNet
        ⟨"Bearer nosub", "arn:aws:execute-api:r1:acc:api/stage/GET/x"⟩ = .ok resp
      ∧ resp.principalID = ""
      ∧ resp.policyDocument = ⟨"2012-10-17", [⟨["execute-api:Invoke"], "Allow",
          ["arn:aws:execute-api:r1:acc:api/stage/GET/x"]⟩]⟩
      ∧ (resp.context.find? (fun p => p.1 == "sub")).map (fun p => p.2) = some "" :=
  C10_missing_sub_allows testParse "r1" "pool1" "cli1" (fun _ => true) 1000 testNet
    ⟨"Bearer nosub", "arn:aws:execute-api:r1:acc:api/stage/GET/x"⟩
    testTokenNoSub.claims (by decide)
    (fun x h => by simp [testTokenNoSub, lookupJ] at h)

end JwtAuth
